import Mathlib

/-!
Verification development for the temoto robot manager
(`robot_manager.cpp`, `robot.cpp`, `robot_manager_interface.h`).

The C++ code is shallowly embedded: each definition below mirrors one
function of the source.  External collaborators (the process launcher,
the MoveIt planner, the ROS transport) are modelled as explicit
parameters recording which calls the code makes and with which outcome.
-/

/-- Error codes used by the embedded functions.  They mirror the
`temoto_core::error::Code` values that appear in the three source files. -/
inductive RmError where
  | NULL_PTR
  | SERVICE_REQ_FAIL
  | ROBOT_PLAN_FAIL
  | PLANNING_GROUP_NOT_FOUND
  | ROBOT_NOT_FOUND
deriving DecidableEq, Repr

/-- Status codes carried by a `temoto_core::ResourceStatus` message.  Only
`FAILED` is inspected by the embedded callbacks. -/
inductive StatusCode where
  | FAILED
  | OK
deriving DecidableEq, Repr

/-- Runtime state of the URDF feature of a robot config (`FeatureURDF`):
enable flag, loaded flag and the id of the external resource backing it.
Launch parameters (package/executable strings) play no role in the claims
and are omitted. -/
structure FeatureURDF where
  enabled : Bool
  loaded : Bool
  resourceId : Nat
deriving DecidableEq, Repr

/-- Runtime state of a driver-and-controller feature (`FeatureNavigation`,
`FeatureGripper`): enable flags, loaded flags and the two external
resource ids (controller and driver). -/
structure FeatureWithDriver where
  enabled : Bool
  driverEnabled : Bool
  loaded : Bool
  driverLoaded : Bool
  resourceId : Nat
  driverResourceId : Nat
deriving DecidableEq, Repr

/-- Runtime state of the manipulation feature (`FeatureManipulation`):
like a driver-and-controller feature, plus the configured planning group
names and the active planning group. -/
structure FeatureManipulation where
  enabled : Bool
  driverEnabled : Bool
  loaded : Bool
  driverLoaded : Bool
  resourceId : Nat
  driverResourceId : Nat
  planningGroups : List String
  activePlanningGroup : String
deriving DecidableEq, Repr

/-- A robot configuration (`RobotConfig`): identity (name and owning
temoto namespace), reliability score, and the four features.  The C++
`reliability` is a `float` in `[0,1]`; it is embedded as a rational
number, which preserves all order comparisons the code performs. -/
structure RobotConfig where
  name : String
  temotoNamespace : String
  reliability : Rat
  featureURDF : FeatureURDF
  featureManipulation : FeatureManipulation
  featureNavigation : FeatureWithDriver
  featureGripper : FeatureWithDriver
deriving DecidableEq, Repr

/-- Modelled from the spec: `RobotConfig::operator==` is declared in
`robot_config.h`, which is not among the provided source files.  The spec
(§3, Data model) states "two configs are equal iff `name` and
`owning_namespace` match (used for dedup and update-in-place)", so the
comparison used by `syncCb` and by both `parseRobotConfigs` overloads is
embedded as equality of `name` and `temotoNamespace`. -/
def robotConfigEq (a b : RobotConfig) : Bool :=
  a.name == b.name && a.temotoNamespace == b.temotoNamespace

/-- `config->setTemotoNamespace(msg.temoto_namespace)`: stamp a config
with the namespace of the coordinator that advertised it. -/
def stampNamespace (ns : String) (c : RobotConfig) : RobotConfig :=
  { c with temotoNamespace := ns }

/-- One-argument `RobotManager::parseRobotConfigs(yaml_config)`.  The
input list stands for the sequence of robot entries of the document that
were successfully constructed into a `RobotConfig` (malformed entries are
skipped by the source with `continue` and therefore never reach the
duplicate check).  A candidate is appended iff no already-accepted config
compares equal to it (`std::count_if` with `*ri == config` equal to 0). -/
def RobotManager.parseRobotConfigs1 (nodes : List RobotConfig) : List RobotConfig :=
  nodes.foldl
    (fun configs c =>
      if configs.countP (fun ri => robotConfigEq ri c) = 0 then
        configs ++ [c]
      else
        configs)
    []

/-- Two-argument `RobotManager::parseRobotConfigs(yaml_config, configs)`.
It starts from the passed-in config list and additionally computes
`compare`, which is true when any existing config has the same `name`;
a candidate is appended iff the `count_if` over `*ri == config` is zero
AND `compare == false`. -/
def RobotManager.parseRobotConfigs2 (nodes : List RobotConfig)
    (configs0 : List RobotConfig) : List RobotConfig :=
  nodes.foldl
    (fun configs c =>
      let compare := configs.any (fun cc => cc.name == c.name)
      if configs.countP (fun ri => robotConfigEq ri c) = 0 && compare == false then
        configs ++ [c]
      else
        configs)
    configs0

/-- Body of the per-candidate loop of `RobotManager::syncCb` for an
`ADVERTISE_CONFIG` message: `std::find_if` looks for an existing remote
entry with `*ri == *config`; if found the entry is overwritten in place
(`*it = config`), otherwise the candidate is appended (`push_back`). -/
def RobotManager.mergeRemoteConfig : List RobotConfig → RobotConfig → List RobotConfig
  | [], c => [c]
  | ri :: rest, c =>
    if robotConfigEq ri c then
      c :: rest
    else
      ri :: RobotManager.mergeRemoteConfig rest c

/-- `RobotManager::syncCb`, `ADVERTISE_CONFIG` branch: the payload is
parsed with the one-argument `parseRobotConfigs`, every candidate is
stamped with the sender's namespace, and the candidates are merged one by
one into the remote-config cache. -/
def RobotManager.syncCbAdvertise (senderNs : String)
    (payloadConfigs : List RobotConfig) (remoteConfigs : List RobotConfig) :
    List RobotConfig :=
  let configs := (RobotManager.parseRobotConfigs1 payloadConfigs).map (stampNamespace senderNs)
  configs.foldl RobotManager.mergeRemoteConfig remoteConfigs

/-- Candidate selection of `RobotManager::findRobot`: all configs when the
requested name is empty, otherwise exactly the configs whose name equals
the argument (`std::copy_if`). -/
def RobotManager.findRobotCandidates (robotName : String)
    (configs : List RobotConfig) : List RobotConfig :=
  if robotName = "" then configs
  else configs.filter (fun s => s.name == robotName)

/-- Postcondition of `std::sort(candidates.begin(), candidates.end(), cmp)`
with `cmp rc1 rc2 = rc1->getReliability() > rc2->getReliability()`: the
output is a permutation of the input arranged in non-increasing
reliability order.  `std::sort` guarantees nothing more — in particular it
is not stable, so any such permutation is a possible result. -/
def IsSortOutput (input output : List RobotConfig) : Prop :=
  List.Perm input output ∧
  List.Pairwise (fun a b => b.reliability ≤ a.reliability) output

instance (input output : List RobotConfig) : Decidable (IsSortOutput input output) :=
  inferInstanceAs (Decidable (_ ∧ _))

/-- `RobotManager::findRobot(robot_name, configs)`, parameterised by the
behaviour `sortFn` chosen by `std::sort` (any function whose output
satisfies `IsSortOutput` on the candidate list is a legal run): build the
candidate list, return `NULL` (here `none`) when it is empty, otherwise
sort it by descending reliability and return the front element. -/
def RobotManager.findRobot (sortFn : List RobotConfig → List RobotConfig)
    (robotName : String) (configs : List RobotConfig) : Option RobotConfig :=
  let candidates := RobotManager.findRobotCandidates robotName configs
  if candidates.isEmpty then none
  else (sortFn candidates).head?

/-- Runtime state of a `Robot` object: its config (`config_`), the keys of
the `planning_groups_` map, and the `is_plan_valid_` flag. -/
structure RobotRt where
  config : RobotConfig
  planningGroups : List String
  isPlanValid : Bool
deriving DecidableEq, Repr

/-- The `Robot` constructor initialises `is_plan_valid_(false)`; the
planning-group map starts empty. -/
def Robot.init (c : RobotConfig) : RobotRt :=
  { config := c, planningGroups := [], isPlanValid := false }

/-- The individual load steps of `Robot::load`, used to record which
external launches the load sequence performs and in which order. -/
inductive LoadStep where
  | urdf
  | manipulationDriver
  | manipulationController
  | navigationDriver
  | navigationController
  | gripperDriver
  | gripperController
deriving DecidableEq, Repr

/-- Errors a load sequence can end with: the `ROBOT_CONFIG_FAIL` thrown by
`Robot::load` when every feature is disabled, or an external failure
forwarded (`FORWARD_ERROR`) from one of the load steps — the process
launcher refusing the request or the readiness wait being interrupted by
a `FAILED` status. -/
inductive LoadError where
  | configFail
  | external (step : LoadStep)
deriving DecidableEq, Repr

/-- Outcome of the external collaborators during one load sequence: for a
given step, `some rid` means the launcher started the process (resource
id `rid`) and its readiness signal appeared; `none` means the step failed
and the error is forwarded. -/
def LoadEnv : Type := LoadStep → Option Nat

/-- `Robot::addPlanningGroup`: opens one planning session and stores it in
the `planning_groups_` map under the group name (`std::map::emplace`,
which keeps the existing entry if the key is already present). -/
def Robot.addPlanningGroup (st : RobotRt) (g : String) : RobotRt :=
  if g ∈ st.planningGroups then st
  else { st with planningGroups := st.planningGroups ++ [g] }

/-- `Robot::loadUrdf`: launch the urdf loader, record the resource id,
wait for the robot-description parameter, mark the feature loaded. -/
def Robot.loadUrdf (env : LoadEnv) (st : RobotRt) :
    Except LoadError (RobotRt × List LoadStep) :=
  match env .urdf with
  | none => .error (.external .urdf)
  | some rid =>
      .ok ({ st with
              config.featureURDF.resourceId := rid,
              config.featureURDF.loaded := true }, [.urdf])

/-- `Robot::loadManipulationDriver`: no-op if already loaded, otherwise
launch the driver, record the driver resource id, wait for the
joint-states topic, mark the driver loaded. -/
def Robot.loadManipulationDriver (env : LoadEnv) (st : RobotRt) :
    Except LoadError (RobotRt × List LoadStep) :=
  if st.config.featureManipulation.driverLoaded then .ok (st, [])
  else
    match env .manipulationDriver with
    | none => .error (.external .manipulationDriver)
    | some rid =>
        .ok ({ st with
                config.featureManipulation.driverResourceId := rid,
                config.featureManipulation.driverLoaded := true }, [.manipulationDriver])

/-- `Robot::loadManipulationController`: no-op if already loaded,
otherwise launch the move group, record the resource id, wait for the
semantic-description parameter, add one planning session per configured
planning group, mark the feature loaded. -/
def Robot.loadManipulationController (env : LoadEnv) (st : RobotRt) :
    Except LoadError (RobotRt × List LoadStep) :=
  if st.config.featureManipulation.loaded then .ok (st, [])
  else
    match env .manipulationController with
    | none => .error (.external .manipulationController)
    | some rid =>
        let st1 := { st with config.featureManipulation.resourceId := rid }
        let st2 := st1.config.featureManipulation.planningGroups.foldl Robot.addPlanningGroup st1
        .ok ({ st2 with config.featureManipulation.loaded := true }, [.manipulationController])

/-- `Robot::loadNavigationDriver`: no-op if already loaded, otherwise
launch the driver, record the driver resource id, wait for the odom
topic, mark the driver loaded. -/
def Robot.loadNavigationDriver (env : LoadEnv) (st : RobotRt) :
    Except LoadError (RobotRt × List LoadStep) :=
  if st.config.featureNavigation.driverLoaded then .ok (st, [])
  else
    match env .navigationDriver with
    | none => .error (.external .navigationDriver)
    | some rid =>
        .ok ({ st with
                config.featureNavigation.driverResourceId := rid,
                config.featureNavigation.driverLoaded := true }, [.navigationDriver])

/-- `Robot::loadNavigationController`: no-op if already loaded, otherwise
launch move base, record the resource id, wait for the cmd-vel topic,
mark the feature loaded. -/
def Robot.loadNavigationController (env : LoadEnv) (st : RobotRt) :
    Except LoadError (RobotRt × List LoadStep) :=
  if st.config.featureNavigation.loaded then .ok (st, [])
  else
    match env .navigationController with
    | none => .error (.external .navigationController)
    | some rid =>
        .ok ({ st with
                config.featureNavigation.resourceId := rid,
                config.featureNavigation.loaded := true }, [.navigationController])

/-- `Robot::loadGripperDriver`: no-op if already marked driver-loaded,
otherwise launch the driver and record the driver resource id.  Note that
the source never calls `setDriverLoaded(true)` here, so the flag stays
false; the embedding mirrors that. -/
def Robot.loadGripperDriver (env : LoadEnv) (st : RobotRt) :
    Except LoadError (RobotRt × List LoadStep) :=
  if st.config.featureGripper.driverLoaded then .ok (st, [])
  else
    match env .gripperDriver with
    | none => .error (.external .gripperDriver)
    | some rid =>
        .ok ({ st with
                config.featureGripper.driverResourceId := rid }, [.gripperDriver])

/-- `Robot::loadGripperController`: no-op if already loaded, otherwise
launch the controller, record the resource id, wait for the
gripper-control service, mark the feature loaded. -/
def Robot.loadGripperController (env : LoadEnv) (st : RobotRt) :
    Except LoadError (RobotRt × List LoadStep) :=
  if st.config.featureGripper.loaded then .ok (st, [])
  else
    match env .gripperController with
    | none => .error (.external .gripperController)
    | some rid =>
        .ok ({ st with
                config.featureGripper.resourceId := rid,
                config.featureGripper.loaded := true }, [.gripperController])

/-- The `loadManipulationDriver(); loadManipulationController();` pair
executed by `Robot::load` inside the manipulation branch. -/
def Robot.loadManipulationPair (env : LoadEnv) (st : RobotRt) :
    Except LoadError (RobotRt × List LoadStep) :=
  match Robot.loadManipulationDriver env st with
  | .error e => .error e
  | .ok (st1, t1) =>
      match Robot.loadManipulationController env st1 with
      | .error e => .error e
      | .ok (st2, t2) => .ok (st2, t1 ++ t2)

/-- The `loadNavigationDriver(); loadNavigationController();` pair
executed by `Robot::load` inside the navigation branch. -/
def Robot.loadNavigationPair (env : LoadEnv) (st : RobotRt) :
    Except LoadError (RobotRt × List LoadStep) :=
  match Robot.loadNavigationDriver env st with
  | .error e => .error e
  | .ok (st1, t1) =>
      match Robot.loadNavigationController env st1 with
      | .error e => .error e
      | .ok (st2, t2) => .ok (st2, t1 ++ t2)

/-- The `loadGripperDriver(); loadGripperController();` pair executed by
`Robot::load` inside the gripper branch. -/
def Robot.loadGripperPair (env : LoadEnv) (st : RobotRt) :
    Except LoadError (RobotRt × List LoadStep) :=
  match Robot.loadGripperDriver env st with
  | .error e => .error e
  | .ok (st1, t1) =>
      match Robot.loadGripperController env st1 with
      | .error e => .error e
      | .ok (st2, t2) => .ok (st2, t1 ++ t2)

/-- `Robot::load`: throw `ROBOT_CONFIG_FAIL` when every one of the four
features is disabled; otherwise run the urdf step when urdf is enabled,
and for each of manipulation, navigation and gripper run the
driver-then-controller pair when the feature is enabled AND its driver is
enabled (the source condition is `isEnabled() and isDriverEnabled()`).
An exception from any step aborts the remaining steps. -/
def Robot.load (env : LoadEnv) (st : RobotRt) :
    Except LoadError (RobotRt × List LoadStep) :=
  if !st.config.featureURDF.enabled && !st.config.featureManipulation.enabled &&
     !st.config.featureNavigation.enabled && !st.config.featureGripper.enabled then
    .error .configFail
  else
    match (if st.config.featureURDF.enabled then Robot.loadUrdf env st else .ok (st, [])) with
    | .error e => .error e
    | .ok (st1, t1) =>
      match (if st1.config.featureManipulation.enabled &&
                st1.config.featureManipulation.driverEnabled then
               Robot.loadManipulationPair env st1 else .ok (st1, [])) with
      | .error e => .error e
      | .ok (st2, t2) =>
        match (if st2.config.featureNavigation.enabled &&
                  st2.config.featureNavigation.driverEnabled then
                 Robot.loadNavigationPair env st2 else .ok (st2, [])) with
        | .error e => .error e
        | .ok (st3, t3) =>
          match (if st3.config.featureGripper.enabled &&
                    st3.config.featureGripper.driverEnabled then
                   Robot.loadGripperPair env st3 else .ok (st3, [])) with
          | .error e => .error e
          | .ok (st4, t4) => .ok (st4, t1 ++ t2 ++ t3 ++ t4)

/-- Destructor `Robot::~Robot` for a local robot (the source guards the
whole body with `isLocal()`).  For each feature resource whose loaded
flag is set, `unloadClientResource` is called with the recorded resource
id — controller first, then driver, feature by feature in source order —
and the flag is cleared.  `unloadClientResource` returns nothing and its
outcome is ignored by the source, so the release outcomes `unloadOk`
cannot influence the control flow; the function returns the updated
config and the list of released resource ids in call order. -/
def Robot.destruct (unloadOk : Nat → Bool) (c : RobotConfig) :
    RobotConfig × List Nat :=
  let released :=
    (if c.featureURDF.loaded then [c.featureURDF.resourceId] else []) ++
    (if c.featureManipulation.loaded then [c.featureManipulation.resourceId] else []) ++
    (if c.featureManipulation.driverLoaded then [c.featureManipulation.driverResourceId] else []) ++
    (if c.featureNavigation.loaded then [c.featureNavigation.resourceId] else []) ++
    (if c.featureNavigation.driverLoaded then [c.featureNavigation.driverResourceId] else []) ++
    (if c.featureGripper.loaded then [c.featureGripper.resourceId] else []) ++
    (if c.featureGripper.driverLoaded then [c.featureGripper.driverResourceId] else [])
  let _ := unloadOk
  ({ c with
      featureURDF.loaded := false,
      featureManipulation.loaded := false,
      featureManipulation.driverLoaded := false,
      featureNavigation.loaded := false,
      featureNavigation.driverLoaded := false,
      featureGripper.loaded := false,
      featureGripper.driverLoaded := false }, released)

/-- `Robot::planManipulationPath(planning_group_name, target_pose)` (pose
variant).  `plannerOk` is the boolean result of the external
`MoveGroupInterface::plan` call.  The source throws `ROBOT_PLAN_FAIL`
when the `planning_groups_` map is empty, substitutes the active planning
group when the requested name is empty, throws
`PLANNING_GROUP_NOT_FOUND` when the lookup fails, stores the resolved
name as the new active planning group, sets `is_plan_valid_` to the
planner's verdict and throws `ROBOT_PLAN_FAIL` when the plan failed.
Because C++ exceptions do not roll back the object state, the function
returns the (possibly mutated) state alongside the outcome. -/
def Robot.planManipulationPathPose (st : RobotRt) (planningGroupName : String)
    (plannerOk : Bool) : RobotRt × Except RmError Unit :=
  if st.planningGroups.isEmpty then (st, .error .ROBOT_PLAN_FAIL)
  else
    let g := if planningGroupName = "" then
               st.config.featureManipulation.activePlanningGroup
             else planningGroupName
    if g ∈ st.planningGroups then
      let st1 := { st with
                    config.featureManipulation.activePlanningGroup := g,
                    isPlanValid := plannerOk }
      (st1, if plannerOk then .ok () else .error .ROBOT_PLAN_FAIL)
    else
      (st, .error .PLANNING_GROUP_NOT_FOUND)

/-- `Robot::planManipulationPath(planning_group_name, named_target)`
(named-target variant).  Same group resolution, mutation and error
behaviour as the pose variant; only the target handed to the external
planner differs. -/
def Robot.planManipulationPathNamed (st : RobotRt) (planningGroupName : String)
    (plannerOk : Bool) : RobotRt × Except RmError Unit :=
  if st.planningGroups.isEmpty then (st, .error .ROBOT_PLAN_FAIL)
  else
    let g := if planningGroupName = "" then
               st.config.featureManipulation.activePlanningGroup
             else planningGroupName
    if g ∈ st.planningGroups then
      let st1 := { st with
                    config.featureManipulation.activePlanningGroup := g,
                    isPlanValid := plannerOk }
      (st1, if plannerOk then .ok () else .error .ROBOT_PLAN_FAIL)
    else
      (st, .error .PLANNING_GROUP_NOT_FOUND)

/-- Observable outcome of `Robot::executeManipulationPath`. -/
inductive ExecOutcome where
  /-- `is_plan_valid_` was false: the source reports "Unable to execute
  group without a plan" and returns without executing. -/
  | noValidPlan
  /-- The plan was executed; the boolean is the external
  `MoveGroupInterface::execute` result. -/
  | executed (success : Bool)
  /-- The active planning group was not in the map: the source reports
  "Planning group was not found" and does not execute. -/
  | groupNotFound
deriving DecidableEq, Repr

/-- `Robot::executeManipulationPath`: look up the active planning group;
refuse with the no-valid-plan error when `is_plan_valid_` is false,
execute the stored plan when the group exists, report group-not-found
otherwise.  `execOk` is the external execution result. -/
def Robot.executeManipulationPath (st : RobotRt) (execOk : Bool) : ExecOutcome :=
  let g := st.config.featureManipulation.activePlanningGroup
  if !st.isPlanValid then .noValidPlan
  else if g ∈ st.planningGroups then .executed execOk
  else .groupNotFound

/-- One entry of `RobotManager::loaded_robots_` as seen by the routing
callbacks: the robot's name and the temoto namespace of its config.
`Robot::isLocal()` compares that namespace with the coordinator's own. -/
structure LoadedRobotEntry where
  name : String
  temotoNamespace : String
deriving DecidableEq, Repr

/-- `RobotManager::findLoadedRobot`: find the first loaded robot with the
requested name; throw `NULL_PTR` ("Robot is not loaded") when there is
none.  (The source's second `NULL_PTR` branch for a null stored pointer
cannot arise in the embedding, where entries are values.) -/
def RobotManager.findLoadedRobot (robots : List LoadedRobotEntry)
    (robotName : String) : Except RmError LoadedRobotEntry :=
  match robots.find? (fun p => p.name == robotName) with
  | none => .error .NULL_PTR
  | some r => .ok r

/-- Result of one routing callback: the outcome delivered to the caller,
the forwarded request (topic and request, present exactly when the remote
branch issued its single service call), and whether the local branch ran. -/
structure RouteResult (Req Resp : Type) where
  outcome : Except RmError Resp
  forwarded : Option (String × Req)
  localExecuted : Bool

/-- Service names from `robot_manager_services.h` (file not among the
provided sources; the concrete strings are irrelevant to the claims —
only the `"/" + namespace + "/" + server` topic shape matters). -/
def srvName.SERVER_PLAN : String := "robot_manager/plan"

/-- Service name of the execute server. -/
def srvName.SERVER_EXECUTE : String := "robot_manager/execute"

/-- Service name of the get-manipulation-target server. -/
def srvName.SERVER_GET_MANIPULATION_TARGET : String := "robot_manager/get_manipulation_target"

/-- Service name of the navigation-goal server. -/
def srvName.SERVER_NAVIGATION_GOAL : String := "robot_manager/navigation_goal"

/-- Service name of the gripper-control-position server. -/
def srvName.SERVER_GRIPPER_CONTROL_POSITION : String := "robot_manager/gripper_control_position"

/-- Opaque pose payload of the request/response messages. -/
abbrev Pose := Nat

/-- `RobotPlanManipulation::Request`. -/
structure PlanReq where
  robotName : String
  planningGroup : String
  useNamedTarget : Bool
  namedTarget : String
  targetPose : Pose
deriving DecidableEq, Repr

/-- `RobotExecutePlan::Request`. -/
structure ExecReq where
  robotName : String
deriving DecidableEq, Repr

/-- `RobotGetTarget::Request`. -/
structure GetTargetReq where
  robotName : String
deriving DecidableEq, Repr

/-- `RobotNavigationGoal::Request`. -/
structure NavReq where
  robotName : String
  referenceFrame : String
  targetPose : Pose
deriving DecidableEq, Repr

/-- `RobotGripperControlPosition::Request` (`control` is the float gripper
position, embedded as a rational). -/
structure GripperReq where
  robotName : String
  control : Rat
deriving DecidableEq, Repr

/-- `RobotGetVizInfo::Request`. -/
structure VizReq where
  robotName : String
deriving DecidableEq, Repr

/-- `RobotManager::planManipulationPathCb`: resolve the loaded robot by
name; if it is local, run the local plan (named-target or pose variant,
abstracted as `localOp`, whose errors propagate); otherwise forward the
identical request once to `"/" + remote namespace + "/" + SERVER_PLAN`
and relay the response, turning a failed transport call into
`SERVICE_REQ_FAIL`. -/
def RobotManager.planManipulationPathCb {Resp : Type} (ownNs : String)
    (robots : List LoadedRobotEntry) (req : PlanReq)
    (localOp : LoadedRobotEntry → PlanReq → Except RmError Resp)
    (remoteCall : String → PlanReq → Option Resp) : RouteResult PlanReq Resp :=
  match RobotManager.findLoadedRobot robots req.robotName with
  | .error e => ⟨.error e, none, false⟩
  | .ok lr =>
    if lr.temotoNamespace == ownNs then
      ⟨localOp lr req, none, true⟩
    else
      let topic := "/" ++ lr.temotoNamespace ++ "/" ++ srvName.SERVER_PLAN
      match remoteCall topic req with
      | some resp => ⟨.ok resp, some (topic, req), false⟩
      | none => ⟨.error .SERVICE_REQ_FAIL, some (topic, req), false⟩

/-- `RobotManager::execManipulationPathCb`: same routing shape as the plan
callback, forwarding to `SERVER_EXECUTE`. -/
def RobotManager.execManipulationPathCb {Resp : Type} (ownNs : String)
    (robots : List LoadedRobotEntry) (req : ExecReq)
    (localOp : LoadedRobotEntry → ExecReq → Except RmError Resp)
    (remoteCall : String → ExecReq → Option Resp) : RouteResult ExecReq Resp :=
  match RobotManager.findLoadedRobot robots req.robotName with
  | .error e => ⟨.error e, none, false⟩
  | .ok lr =>
    if lr.temotoNamespace == ownNs then
      ⟨localOp lr req, none, true⟩
    else
      let topic := "/" ++ lr.temotoNamespace ++ "/" ++ srvName.SERVER_EXECUTE
      match remoteCall topic req with
      | some resp => ⟨.ok resp, some (topic, req), false⟩
      | none => ⟨.error .SERVICE_REQ_FAIL, some (topic, req), false⟩

/-- `RobotManager::getManipulationTargetCb`: same routing shape,
forwarding to `SERVER_GET_MANIPULATION_TARGET`. -/
def RobotManager.getManipulationTargetCb {Resp : Type} (ownNs : String)
    (robots : List LoadedRobotEntry) (req : GetTargetReq)
    (localOp : LoadedRobotEntry → GetTargetReq → Except RmError Resp)
    (remoteCall : String → GetTargetReq → Option Resp) : RouteResult GetTargetReq Resp :=
  match RobotManager.findLoadedRobot robots req.robotName with
  | .error e => ⟨.error e, none, false⟩
  | .ok lr =>
    if lr.temotoNamespace == ownNs then
      ⟨localOp lr req, none, true⟩
    else
      let topic := "/" ++ lr.temotoNamespace ++ "/" ++ srvName.SERVER_GET_MANIPULATION_TARGET
      match remoteCall topic req with
      | some resp => ⟨.ok resp, some (topic, req), false⟩
      | none => ⟨.error .SERVICE_REQ_FAIL, some (topic, req), false⟩

/-- `RobotManager::goalNavigationCb`: same routing shape, forwarding to
`SERVER_NAVIGATION_GOAL`. -/
def RobotManager.goalNavigationCb {Resp : Type} (ownNs : String)
    (robots : List LoadedRobotEntry) (req : NavReq)
    (localOp : LoadedRobotEntry → NavReq → Except RmError Resp)
    (remoteCall : String → NavReq → Option Resp) : RouteResult NavReq Resp :=
  match RobotManager.findLoadedRobot robots req.robotName with
  | .error e => ⟨.error e, none, false⟩
  | .ok lr =>
    if lr.temotoNamespace == ownNs then
      ⟨localOp lr req, none, true⟩
    else
      let topic := "/" ++ lr.temotoNamespace ++ "/" ++ srvName.SERVER_NAVIGATION_GOAL
      match remoteCall topic req with
      | some resp => ⟨.ok resp, some (topic, req), false⟩
      | none => ⟨.error .SERVICE_REQ_FAIL, some (topic, req), false⟩

/-- `RobotManager::gripperControlPositionCb`: same routing shape,
forwarding to `SERVER_GRIPPER_CONTROL_POSITION`. -/
def RobotManager.gripperControlPositionCb {Resp : Type} (ownNs : String)
    (robots : List LoadedRobotEntry) (req : GripperReq)
    (localOp : LoadedRobotEntry → GripperReq → Except RmError Resp)
    (remoteCall : String → GripperReq → Option Resp) : RouteResult GripperReq Resp :=
  match RobotManager.findLoadedRobot robots req.robotName with
  | .error e => ⟨.error e, none, false⟩
  | .ok lr =>
    if lr.temotoNamespace == ownNs then
      ⟨localOp lr req, none, true⟩
    else
      let topic := "/" ++ lr.temotoNamespace ++ "/" ++ srvName.SERVER_GRIPPER_CONTROL_POSITION
      match remoteCall topic req with
      | some resp => ⟨.ok resp, some (topic, req), false⟩
      | none => ⟨.error .SERVICE_REQ_FAIL, some (topic, req), false⟩

/-- `RobotManager::getVizInfoCb`: resolve the loaded robot by name and
answer `loaded_robot->getVizInfo()` directly.  Unlike the other operation
callbacks, the source has no local/remote branch here: the visualization
info is always computed locally, whatever the robot's owning namespace. -/
def RobotManager.getVizInfoCb (robots : List LoadedRobotEntry) (req : VizReq)
    (vizInfo : LoadedRobotEntry → String) : RouteResult VizReq String :=
  match RobotManager.findLoadedRobot robots req.robotName with
  | .error e => ⟨.error e, none, false⟩
  | .ok lr => ⟨.ok (vizInfo lr), none, true⟩

/-- One entry of `RobotManagerInterface::allocated_robots_`: a
`temoto_robot_manager::RobotLoad` query, i.e. the request's robot name
and the response's tracked resource id (`response.trr.resource_id`). -/
structure RobotLoadQuery where
  requestRobotName : String
  responseResourceId : Nat
deriving DecidableEq, Repr

/-- Externally visible resource operations issued by
`RobotManagerInterface::statusInfoCb`. -/
inductive IfaceAction where
  /-- `resource_registrar_->unloadClientResource(rid)`. -/
  | unloadClientResource (rid : Nat)
  /-- `resource_registrar_->call<RobotLoad>(MANAGER, SERVER_LOAD, query)`:
  a load request for the whole robot named here. -/
  | callRobotLoad (robotName : String)
deriving DecidableEq, Repr

/-- `RobotManagerInterface::statusInfoCb`: find the first allocated robot
whose response resource id equals the notification's resource id; when it
exists and the status is `FAILED`, unload that client resource and
re-issue the very same `RobotLoad` call ("asking the same component
again"), which updates the found entry's response in place (`newRid` is
the resource id the re-issued load returns).  Any other notification
changes nothing.  Returns the updated allocated list and the actions
performed. -/
def RobotManagerInterface.statusInfoCb :
    List RobotLoadQuery → Nat → StatusCode → Nat →
    List RobotLoadQuery × List IfaceAction
  | [], _, _, _ => ([], [])
  | r :: rest, rid, status, newRid =>
    if r.responseResourceId = rid then
      if status = .FAILED then
        ({ requestRobotName := r.requestRobotName, responseResourceId := newRid } :: rest,
         [.unloadClientResource rid, .callRobotLoad r.requestRobotName])
      else (r :: rest, [])
    else
      let p := RobotManagerInterface.statusInfoCb rest rid status newRid
      (r :: p.1, p.2)

/-- `RobotManager::statusInfoCb`: in the source the entire body of the
`FAILED` branch is commented out (and the callback is not even registered
with the resource registrar — line 69 of `robot_manager.cpp` is a
comment), so the manager-side handler performs no action and leaves the
loaded-robot table untouched whatever the notification says. -/
def RobotManager.statusInfoCb (loadedRobots : List LoadedRobotEntry)
    (statusCode : StatusCode) : List LoadedRobotEntry × List IfaceAction :=
  let _ := statusCode
  (loadedRobots, [])

/-- A URDF feature block that is disabled and not loaded. -/
def featURDFoff : FeatureURDF := { enabled := false, loaded := false, resourceId := 0 }

/-- A manipulation feature block that is disabled and not loaded. -/
def featManipOff : FeatureManipulation :=
  { enabled := false, driverEnabled := false, loaded := false, driverLoaded := false,
    resourceId := 0, driverResourceId := 0, planningGroups := [], activePlanningGroup := "" }

/-- A navigation/gripper feature block that is disabled and not loaded. -/
def featDrvOff : FeatureWithDriver :=
  { enabled := false, driverEnabled := false, loaded := false, driverLoaded := false,
    resourceId := 0, driverResourceId := 0 }

/-- Concrete config: robot "arm1" owned by namespace "ns_a". -/
def cfgTieA : RobotConfig :=
  { name := "arm1", temotoNamespace := "ns_a", reliability := 1,
    featureURDF := featURDFoff, featureManipulation := featManipOff,
    featureNavigation := featDrvOff, featureGripper := featDrvOff }

/-- Concrete config: a robot also named "arm1" but owned by namespace
"ns_b", with the same reliability as `cfgTieA`. -/
def cfgTieB : RobotConfig := { cfgTieA with temotoNamespace := "ns_b" }

/-- Concrete config for the spec's scenario: manipulation enabled with one
planning group "main" and no driver configured; all other features
disabled. -/
def manipOnlyNoDriverCfg : RobotConfig :=
  { cfgTieA with featureManipulation :=
      { featManipOff with enabled := true, planningGroups := ["main"] } }

/-- Concrete config in which all seven feature resources are marked
loaded, with distinct resource ids. -/
def allLoadedCfg : RobotConfig :=
  { name := "arm2", temotoNamespace := "ns_a", reliability := 1,
    featureURDF := { enabled := true, loaded := true, resourceId := 1 },
    featureManipulation :=
      { featManipOff with
          enabled := true
          driverEnabled := true
          loaded := true
          driverLoaded := true
          resourceId := 2
          driverResourceId := 3 },
    featureNavigation :=
      { enabled := true
        driverEnabled := true
        loaded := true
        driverLoaded := true
        resourceId := 4
        driverResourceId := 5 },
    featureGripper :=
      { enabled := true
        driverEnabled := true
        loaded := true
        driverLoaded := true
        resourceId := 6
        driverResourceId := 7 } }

/-- Concrete robot runtime state with one open planning session "main",
which is also the active planning group, and no valid plan yet. -/
def planStW : RobotRt :=
  { config := { cfgTieA with featureManipulation :=
        { featManipOff with
            enabled := true
            planningGroups := ["main"]
            activePlanningGroup := "main" } },
    planningGroups := ["main"], isPlanValid := false }

/-- C9: the two `parseRobotConfigs` overloads implement different
duplicate-detection semantics and are not equivalent.  With the candidate
"arm1"@"ns_a" and the pre-existing list holding "arm1"@"ns_b", the
one-argument overload (which ignores the pre-existing list and rejects
only on a config comparing equal under `operator==`) accepts the
candidate, while the two-argument overload rejects it because a config of
the same name already exists — the resulting config sets differ. -/
theorem parseRobotConfigs_overloads_inequivalent :
    RobotManager.parseRobotConfigs1 [cfgTieA] = [cfgTieA] ∧
    RobotManager.parseRobotConfigs2 [cfgTieA] [cfgTieB] = [cfgTieB] ∧
    cfgTieA ∈ RobotManager.parseRobotConfigs1 [cfgTieA] ∧
    cfgTieA ∉ RobotManager.parseRobotConfigs2 [cfgTieA] [cfgTieB] ∧
    RobotManager.parseRobotConfigs1 [cfgTieA] ≠
      RobotManager.parseRobotConfigs2 [cfgTieA] [cfgTieB] := by
  refine ⟨rfl, rfl, ?_, ?_, ?_⟩ <;> decide

/-- Helper: when no existing entry compares equal to the candidate, the
sync merge appends the candidate at the end. -/
theorem mergeRemoteConfig_append (remote : List RobotConfig) (c : RobotConfig)
    (h : ∀ r ∈ remote, robotConfigEq r c = false) :
    RobotManager.mergeRemoteConfig remote c = remote ++ [c] := by
  induction remote with
  | nil => rfl
  | cons ri rest ih =>
      have hri : robotConfigEq ri c = false := h ri (List.mem_cons_self ri rest)
      simp only [RobotManager.mergeRemoteConfig, hri, Bool.false_eq_true, if_false,
        List.cons_append, List.cons.injEq, true_and]
      exact ih (fun r hr => h r (List.mem_cons_of_mem ri hr))

/-- Helper: the sync merge overwrites, in place, the first existing entry
that compares equal to the candidate. -/
theorem mergeRemoteConfig_overwrite (pre rest : List RobotConfig) (x c : RobotConfig)
    (hpre : ∀ r ∈ pre, robotConfigEq r c = false)
    (hx : robotConfigEq x c = true) :
    RobotManager.mergeRemoteConfig (pre ++ x :: rest) c = pre ++ c :: rest := by
  induction pre with
  | nil => simp [RobotManager.mergeRemoteConfig, hx]
  | cons ri restp ih =>
      have hri : robotConfigEq ri c = false := hpre ri (List.mem_cons_self ri restp)
      simp only [List.cons_append, RobotManager.mergeRemoteConfig, hri,
        Bool.false_eq_true, if_false, List.cons.injEq, true_and]
      exact ih (fun r hr => hpre r (List.mem_cons_of_mem ri hr))

/-- Helper: a single successfully parsed candidate always survives the
one-argument parse (the accepted list starts empty, so the duplicate
count is zero). -/
theorem parseRobotConfigs1_singleton (c : RobotConfig) :
    RobotManager.parseRobotConfigs1 [c] = [c] := rfl

/-- Helper: advertising a one-config payload runs the merge on the
stamped candidate. -/
theorem syncCbAdvertise_singleton (ns : String) (c : RobotConfig)
    (remote : List RobotConfig) :
    RobotManager.syncCbAdvertise ns [c] remote =
      RobotManager.mergeRemoteConfig remote (stampNamespace ns c) := rfl

/-- Helper: two configs with the same name get the same identity key once
stamped with the same namespace. -/
theorem robotConfigEq_stamp_of_name (ns : String) (c c2 r : RobotConfig)
    (hname : c2.name = c.name) :
    robotConfigEq r (stampNamespace ns c2) = robotConfigEq r (stampNamespace ns c) := by
  simp [robotConfigEq, stampNamespace, hname]

/-- C6: the remote-config merge of `syncCb` stamps each candidate with the
sender's namespace and is keyed by (name, namespace): with no existing
entry of that identity the stamped candidate is appended; an existing
entry of that identity is overwritten in place; and advertising the same
robot twice from the same namespace leaves exactly one cache entry,
carrying the second advertisement's fields. -/
theorem syncCb_merge_keyed_idempotent :
    (∀ (ns : String) (c : RobotConfig) (remote : List RobotConfig),
       (∀ r ∈ remote, robotConfigEq r (stampNamespace ns c) = false) →
       RobotManager.syncCbAdvertise ns [c] remote = remote ++ [stampNamespace ns c]) ∧
    (∀ (ns : String) (c x : RobotConfig) (pre rest : List RobotConfig),
       (∀ r ∈ pre, robotConfigEq r (stampNamespace ns c) = false) →
       robotConfigEq x (stampNamespace ns c) = true →
       RobotManager.syncCbAdvertise ns [c] (pre ++ x :: rest) =
         pre ++ stampNamespace ns c :: rest) ∧
    (∀ (ns : String) (c c2 : RobotConfig) (remote : List RobotConfig),
       (∀ r ∈ remote, robotConfigEq r (stampNamespace ns c) = false) →
       c2.name = c.name →
       RobotManager.syncCbAdvertise ns [c2] (RobotManager.syncCbAdvertise ns [c] remote) =
         remote ++ [stampNamespace ns c2] ∧
       (RobotManager.syncCbAdvertise ns [c2]
           (RobotManager.syncCbAdvertise ns [c] remote)).countP
         (fun r => robotConfigEq r (stampNamespace ns c2)) = 1) := by
  refine ⟨?_, ?_, ?_⟩
  · intro ns c remote h
    rw [syncCbAdvertise_singleton]
    exact mergeRemoteConfig_append remote (stampNamespace ns c) h
  · intro ns c x pre rest hpre hx
    rw [syncCbAdvertise_singleton]
    exact mergeRemoteConfig_overwrite pre rest x (stampNamespace ns c) hpre hx
  · intro ns c c2 remote h hname
    have hstamp : robotConfigEq (stampNamespace ns c) (stampNamespace ns c2) = true := by
      simp [robotConfigEq, stampNamespace, hname]
    have h2 : ∀ r ∈ remote, robotConfigEq r (stampNamespace ns c2) = false := by
      intro r hr
      rw [robotConfigEq_stamp_of_name ns c c2 r hname]
      exact h r hr
    have hfirst : RobotManager.syncCbAdvertise ns [c] remote =
        remote ++ [stampNamespace ns c] := by
      rw [syncCbAdvertise_singleton]
      exact mergeRemoteConfig_append remote (stampNamespace ns c) h
    have hsecond : RobotManager.syncCbAdvertise ns [c2]
        (RobotManager.syncCbAdvertise ns [c] remote) = remote ++ [stampNamespace ns c2] := by
      rw [hfirst, syncCbAdvertise_singleton]
      have := mergeRemoteConfig_overwrite remote [] (stampNamespace ns c)
        (stampNamespace ns c2) h2 (by simpa [robotConfigEq, stampNamespace] using hstamp)
      simpa using this
    refine ⟨hsecond, ?_⟩
    rw [hsecond]
    have hself : robotConfigEq (stampNamespace ns c2) (stampNamespace ns c2) = true := by
      simp [robotConfigEq]
    rw [List.countP_append]
    have hz : remote.countP (fun r => robotConfigEq r (stampNamespace ns c2)) = 0 := by
      rw [List.countP_eq_zero]
      intro r hr
      simpa using h2 r hr
    simp [hz, hself]

/-- Witness for C6: the three parts of the merge theorem evaluated at
concrete inputs — an empty cache, a cache holding exactly one entry of
the advertised identity, and a double advertisement of robot "arm1" from
namespace "ns_c". -/
theorem syncCb_merge_keyed_idempotent_witness :
    (RobotManager.syncCbAdvertise "ns_c" [cfgTieA] [] = [stampNamespace "ns_c" cfgTieA]) ∧
    (RobotManager.syncCbAdvertise "ns_c" [cfgTieA]
       ([] ++ stampNamespace "ns_c" cfgTieB :: []) =
       [] ++ stampNamespace "ns_c" cfgTieA :: []) ∧
    (RobotManager.syncCbAdvertise "ns_c" [cfgTieB]
        (RobotManager.syncCbAdvertise "ns_c" [cfgTieA] []) =
        [] ++ [stampNamespace "ns_c" cfgTieB] ∧
     (RobotManager.syncCbAdvertise "ns_c" [cfgTieB]
         (RobotManager.syncCbAdvertise "ns_c" [cfgTieA] [])).countP
       (fun r => robotConfigEq r (stampNamespace "ns_c" cfgTieB)) = 1) := by
  refine ⟨?_, ?_, ?_⟩
  · have := syncCb_merge_keyed_idempotent.1 "ns_c" cfgTieA [] (by decide)
    simpa using this
  · exact syncCb_merge_keyed_idempotent.2.1 "ns_c" cfgTieA
      (stampNamespace "ns_c" cfgTieB) [] [] (by decide) (by decide)
  · exact syncCb_merge_keyed_idempotent.2.2 "ns_c" cfgTieB cfgTieA [] (by decide) (by decide)

/-- C5: `is_plan_valid_` gates execution.  A freshly constructed robot
(constructor sets `is_plan_valid_(false)`) refuses `executePlan` with the
no-valid-plan error; a plan attempt whose planner found no viable plan
(both the pose and the named-target variant) clears the validity flag,
reports `ROBOT_PLAN_FAIL`, and a subsequent execute is rejected locally
with the no-valid-plan error; an execute after a successful plan proceeds
to execution. -/
theorem executePlan_requires_valid_plan :
    (∀ (c : RobotConfig) (e : Bool),
       Robot.executeManipulationPath (Robot.init c) e = .noValidPlan) ∧
    (∀ (st : RobotRt) (g : String) (e : Bool),
       (if g = "" then st.config.featureManipulation.activePlanningGroup else g) ∈
           st.planningGroups →
       ((Robot.planManipulationPathPose st g false).1.isPlanValid = false ∧
        (Robot.planManipulationPathPose st g false).2 = .error .ROBOT_PLAN_FAIL ∧
        Robot.executeManipulationPath (Robot.planManipulationPathPose st g false).1 e =
          .noValidPlan) ∧
       ((Robot.planManipulationPathNamed st g false).1.isPlanValid = false ∧
        (Robot.planManipulationPathNamed st g false).2 = .error .ROBOT_PLAN_FAIL ∧
        Robot.executeManipulationPath (Robot.planManipulationPathNamed st g false).1 e =
          .noValidPlan)) ∧
    (∀ (st : RobotRt) (g : String) (e : Bool),
       (if g = "" then st.config.featureManipulation.activePlanningGroup else g) ∈
           st.planningGroups →
       ((Robot.planManipulationPathPose st g true).2 = .ok () ∧
        Robot.executeManipulationPath (Robot.planManipulationPathPose st g true).1 e =
          .executed e) ∧
       ((Robot.planManipulationPathNamed st g true).2 = .ok () ∧
        Robot.executeManipulationPath (Robot.planManipulationPathNamed st g true).1 e =
          .executed e)) := by
  have hne : ∀ (st : RobotRt) (g : String),
      (if g = "" then st.config.featureManipulation.activePlanningGroup else g) ∈
          st.planningGroups → st.planningGroups.isEmpty = false := by
    intro st g hmem
    cases hl : st.planningGroups with
    | nil => rw [hl] at hmem; cases hmem
    | cons a t => rfl
  refine ⟨?_, ?_, ?_⟩
  · intro c e
    simp [Robot.init, Robot.executeManipulationPath]
  · intro st g e hmem
    have h0 := hne st g hmem
    refine ⟨⟨?_, ?_, ?_⟩, ⟨?_, ?_, ?_⟩⟩ <;>
      simp [Robot.planManipulationPathPose, Robot.planManipulationPathNamed, h0,
        if_pos hmem, Robot.executeManipulationPath]
  · intro st g e hmem
    have h0 := hne st g hmem
    refine ⟨⟨?_, ?_⟩, ⟨?_, ?_⟩⟩ <;>
      simp [Robot.planManipulationPathPose, Robot.planManipulationPathNamed, h0,
        if_pos hmem, Robot.executeManipulationPath, hmem]

/-- Witness for C5: the three parts of the validity theorem at the
concrete state `planStW` (one session "main"), group "main". -/
theorem executePlan_requires_valid_plan_witness :
    Robot.executeManipulationPath (Robot.init cfgTieA) true = .noValidPlan ∧
    (Robot.planManipulationPathPose planStW "main" false).1.isPlanValid = false ∧
    Robot.executeManipulationPath (Robot.planManipulationPathPose planStW "main" false).1
      true = .noValidPlan ∧
    Robot.executeManipulationPath (Robot.planManipulationPathPose planStW "main" true).1
      true = .executed true := by
  have h1 := executePlan_requires_valid_plan.1 cfgTieA true
  have h2 := executePlan_requires_valid_plan.2.1 planStW "main" true (by decide)
  have h3 := executePlan_requires_valid_plan.2.2 planStW "main" true (by decide)
  exact ⟨h1, h2.1.1, h2.1.2.2, h3.1.2⟩

/-- C10: planning-group resolution.  An empty planning-group name is
substituted with the config's active planning group before lookup (for
both `planManipulationPath` variants the empty-name call behaves exactly
like a call naming the current active group); on a successful lookup the
resolved name is stored as the new active planning group, so a later
empty-name plan behaves like a plan naming that group, and a later
`executePlan` looks up that same group; a failed lookup leaves the state
unchanged. -/
theorem planManipulationPath_group_resolution :
    (∀ (st : RobotRt) (p : Bool),
       Robot.planManipulationPathPose st "" p =
         Robot.planManipulationPathPose st
           st.config.featureManipulation.activePlanningGroup p ∧
       Robot.planManipulationPathNamed st "" p =
         Robot.planManipulationPathNamed st
           st.config.featureManipulation.activePlanningGroup p) ∧
    (∀ (st : RobotRt) (g : String) (p : Bool),
       g ≠ "" → g ∈ st.planningGroups →
       (Robot.planManipulationPathPose st g p).1.config.featureManipulation.activePlanningGroup
           = g ∧
       (Robot.planManipulationPathNamed st g p).1.config.featureManipulation.activePlanningGroup
           = g) ∧
    (∀ (st : RobotRt) (g : String) (p q e : Bool),
       g ≠ "" → g ∈ st.planningGroups →
       (Robot.planManipulationPathPose (Robot.planManipulationPathPose st g p).1 "" q =
          Robot.planManipulationPathPose (Robot.planManipulationPathPose st g p).1 g q) ∧
       (Robot.executeManipulationPath (Robot.planManipulationPathPose st g true).1 e =
          .executed e)) ∧
    (∀ (st : RobotRt) (g : String) (p : Bool),
       g ∉ st.planningGroups →
       (if g = "" then st.config.featureManipulation.activePlanningGroup else g) ∉
           st.planningGroups →
       (Robot.planManipulationPathPose st g p).1 = st ∧
       (Robot.planManipulationPathNamed st g p).1 = st) := by
  have hsub : ∀ (st : RobotRt) (p : Bool),
      Robot.planManipulationPathPose st "" p =
        Robot.planManipulationPathPose st
          st.config.featureManipulation.activePlanningGroup p := by
    intro st p
    by_cases ha : st.config.featureManipulation.activePlanningGroup = "" <;>
      simp [Robot.planManipulationPathPose, ha]
  have hsubn : ∀ (st : RobotRt) (p : Bool),
      Robot.planManipulationPathNamed st "" p =
        Robot.planManipulationPathNamed st
          st.config.featureManipulation.activePlanningGroup p := by
    intro st p
    by_cases ha : st.config.featureManipulation.activePlanningGroup = "" <;>
      simp [Robot.planManipulationPathNamed, ha]
  have hne : ∀ (st : RobotRt) (g : String), g ∈ st.planningGroups →
      st.planningGroups.isEmpty = false := by
    intro st g hmem
    cases hl : st.planningGroups with
    | nil => rw [hl] at hmem; cases hmem
    | cons a t => rfl
  have hstore : ∀ (st : RobotRt) (g : String) (p : Bool), g ≠ "" →
      g ∈ st.planningGroups →
      (Robot.planManipulationPathPose st g p).1 =
        { st with
            config.featureManipulation.activePlanningGroup := g
            isPlanValid := p } := by
    intro st g p hg hmem
    simp [Robot.planManipulationPathPose, hne st g hmem, hg, if_pos hmem]
  have hstoren : ∀ (st : RobotRt) (g : String) (p : Bool), g ≠ "" →
      g ∈ st.planningGroups →
      (Robot.planManipulationPathNamed st g p).1 =
        { st with
            config.featureManipulation.activePlanningGroup := g
            isPlanValid := p } := by
    intro st g p hg hmem
    simp [Robot.planManipulationPathNamed, hne st g hmem, hg, if_pos hmem]
  refine ⟨fun st p => ⟨hsub st p, hsubn st p⟩, ?_, ?_, ?_⟩
  · intro st g p hg hmem
    rw [hstore st g p hg hmem, hstoren st g p hg hmem]
    exact ⟨rfl, rfl⟩
  · intro st g p q e hg hmem
    refine ⟨?_, ?_⟩
    · rw [hstore st g p hg hmem]
      exact hsub _ q
    · rw [hstore st g true hg hmem]
      simp [Robot.executeManipulationPath, hmem]
  · intro st g p hg hres
    have h1 : (if g = "" then st.config.featureManipulation.activePlanningGroup else g) ∉
        st.planningGroups := hres
    by_cases h0 : st.planningGroups.isEmpty
    · simp [Robot.planManipulationPathPose, Robot.planManipulationPathNamed, h0]
    · simp only [Bool.not_eq_true] at h0
      simp [Robot.planManipulationPathPose, Robot.planManipulationPathNamed, h0, h1]

/-- Witness for C10: the group-resolution theorem evaluated at the
concrete state `planStW` with group "main". -/
theorem planManipulationPath_group_resolution_witness :
    (Robot.planManipulationPathPose planStW "" true =
       Robot.planManipulationPathPose planStW
         planStW.config.featureManipulation.activePlanningGroup true) ∧
    (Robot.planManipulationPathPose planStW "main"
        true).1.config.featureManipulation.activePlanningGroup = "main" ∧
    Robot.executeManipulationPath (Robot.planManipulationPathPose planStW "main" true).1
      false = .executed false ∧
    (Robot.planManipulationPathPose planStW "other" true).1 = planStW := by
  refine ⟨(planManipulationPath_group_resolution.1 planStW true).1, ?_, ?_, ?_⟩
  · exact (planManipulationPath_group_resolution.2.1 planStW "main" true
      (by decide) (by decide)).1
  · exact (planManipulationPath_group_resolution.2.2.1 planStW "main" true true false
      (by decide) (by decide)).2
  · exact (planManipulationPath_group_resolution.2.2.2 planStW "other" true
      (by decide) (by decide)).1

/-- C7: destroying a local robot releases the external resource of every
feature marked loaded; within each feature the controller's resource is
released before the driver's; every released feature's loaded flag is
cleared in the resulting config; and the release sequence is entirely
independent of the release outcomes (`unloadClientResource` returns
nothing and the source never aborts early), so a failed release cannot
prevent later releases. -/
theorem destruct_releases_every_loaded_feature :
    ∀ (ok : Nat → Bool) (c : RobotConfig),
      (c.featureURDF.loaded = true →
        c.featureURDF.resourceId ∈ (Robot.destruct ok c).2) ∧
      (c.featureManipulation.loaded = true →
        c.featureManipulation.resourceId ∈ (Robot.destruct ok c).2) ∧
      (c.featureManipulation.driverLoaded = true →
        c.featureManipulation.driverResourceId ∈ (Robot.destruct ok c).2) ∧
      (c.featureNavigation.loaded = true →
        c.featureNavigation.resourceId ∈ (Robot.destruct ok c).2) ∧
      (c.featureNavigation.driverLoaded = true →
        c.featureNavigation.driverResourceId ∈ (Robot.destruct ok c).2) ∧
      (c.featureGripper.loaded = true →
        c.featureGripper.resourceId ∈ (Robot.destruct ok c).2) ∧
      (c.featureGripper.driverLoaded = true →
        c.featureGripper.driverResourceId ∈ (Robot.destruct ok c).2) ∧
      (c.featureManipulation.loaded = true → c.featureManipulation.driverLoaded = true →
        ∃ A B, (Robot.destruct ok c).2 =
          A ++ c.featureManipulation.resourceId ::
            c.featureManipulation.driverResourceId :: B) ∧
      (c.featureNavigation.loaded = true → c.featureNavigation.driverLoaded = true →
        ∃ A B, (Robot.destruct ok c).2 =
          A ++ c.featureNavigation.resourceId ::
            c.featureNavigation.driverResourceId :: B) ∧
      (c.featureGripper.loaded = true → c.featureGripper.driverLoaded = true →
        ∃ A B, (Robot.destruct ok c).2 =
          A ++ c.featureGripper.resourceId ::
            c.featureGripper.driverResourceId :: B) ∧
      ((Robot.destruct ok c).1.featureURDF.loaded = false ∧
       (Robot.destruct ok c).1.featureManipulation.loaded = false ∧
       (Robot.destruct ok c).1.featureManipulation.driverLoaded = false ∧
       (Robot.destruct ok c).1.featureNavigation.loaded = false ∧
       (Robot.destruct ok c).1.featureNavigation.driverLoaded = false ∧
       (Robot.destruct ok c).1.featureGripper.loaded = false ∧
       (Robot.destruct ok c).1.featureGripper.driverLoaded = false) ∧
      (∀ ok2 : Nat → Bool, Robot.destruct ok c = Robot.destruct ok2 c) := by
  intro ok c
  refine ⟨?_, ?_, ?_, ?_, ?_, ?_, ?_, ?_, ?_, ?_, ?_, ?_⟩
  · intro h; simp [Robot.destruct, h]
  · intro h; simp [Robot.destruct, h]
  · intro h; simp [Robot.destruct, h]
  · intro h; simp [Robot.destruct, h]
  · intro h; simp [Robot.destruct, h]
  · intro h; simp [Robot.destruct, h]
  · intro h; simp [Robot.destruct, h]
  · intro h1 h2
    refine ⟨(if c.featureURDF.loaded then [c.featureURDF.resourceId] else []),
      (if c.featureNavigation.loaded then [c.featureNavigation.resourceId] else []) ++
      (if c.featureNavigation.driverLoaded then [c.featureNavigation.driverResourceId] else []) ++
      (if c.featureGripper.loaded then [c.featureGripper.resourceId] else []) ++
      (if c.featureGripper.driverLoaded then [c.featureGripper.driverResourceId] else []), ?_⟩
    simp [Robot.destruct, h1, h2]
  · intro h1 h2
    refine ⟨(if c.featureURDF.loaded then [c.featureURDF.resourceId] else []) ++
      (if c.featureManipulation.loaded then [c.featureManipulation.resourceId] else []) ++
      (if c.featureManipulation.driverLoaded then [c.featureManipulation.driverResourceId] else []),
      (if c.featureGripper.loaded then [c.featureGripper.resourceId] else []) ++
      (if c.featureGripper.driverLoaded then [c.featureGripper.driverResourceId] else []), ?_⟩
    simp [Robot.destruct, h1, h2]
  · intro h1 h2
    refine ⟨(if c.featureURDF.loaded then [c.featureURDF.resourceId] else []) ++
      (if c.featureManipulation.loaded then [c.featureManipulation.resourceId] else []) ++
      (if c.featureManipulation.driverLoaded then [c.featureManipulation.driverResourceId] else []) ++
      (if c.featureNavigation.loaded then [c.featureNavigation.resourceId] else []) ++
      (if c.featureNavigation.driverLoaded then [c.featureNavigation.driverResourceId] else []),
      [], ?_⟩
    simp [Robot.destruct, h1, h2]
  · simp [Robot.destruct]
  · intro ok2; rfl

/-- Witness for C7: the destructor theorem evaluated at `allLoadedCfg`
(all seven resources loaded, release reported as failing for every id):
all seven ids are released in controller-before-driver order and all
flags come back cleared. -/
theorem destruct_releases_every_loaded_feature_witness :
    (Robot.destruct (fun _ => false) allLoadedCfg).2 = [1, 2, 3, 4, 5, 6, 7] ∧
    allLoadedCfg.featureManipulation.resourceId ∈
      (Robot.destruct (fun _ => false) allLoadedCfg).2 ∧
    (Robot.destruct (fun _ => false) allLoadedCfg).1.featureGripper.driverLoaded = false := by
  have h := destruct_releases_every_loaded_feature (fun _ => false) allLoadedCfg
  refine ⟨by decide, h.2.1 (by decide), h.2.2.2.2.2.2.2.2.2.2.1.2.2.2.2.2.2⟩

/-- Helper: `loadUrdf` can only fail with a forwarded external error,
never with `ROBOT_CONFIG_FAIL`. -/
theorem loadUrdf_no_configFail (env : LoadEnv) (st : RobotRt) :
    Robot.loadUrdf env st ≠ .error .configFail := by
  cases h : env .urdf <;> simp [Robot.loadUrdf, h]

/-- Helper: `loadManipulationDriver` never fails with `ROBOT_CONFIG_FAIL`. -/
theorem loadManipulationDriver_no_configFail (env : LoadEnv) (st : RobotRt) :
    Robot.loadManipulationDriver env st ≠ .error .configFail := by
  rw [Robot.loadManipulationDriver]
  split
  · simp
  · cases h : env .manipulationDriver <;> simp [h]

/-- Helper: `loadManipulationController` never fails with
`ROBOT_CONFIG_FAIL`. -/
theorem loadManipulationController_no_configFail (env : LoadEnv) (st : RobotRt) :
    Robot.loadManipulationController env st ≠ .error .configFail := by
  rw [Robot.loadManipulationController]
  split
  · simp
  · cases h : env .manipulationController <;> simp [h]

/-- Helper: `loadNavigationDriver` never fails with `ROBOT_CONFIG_FAIL`. -/
theorem loadNavigationDriver_no_configFail (env : LoadEnv) (st : RobotRt) :
    Robot.loadNavigationDriver env st ≠ .error .configFail := by
  rw [Robot.loadNavigationDriver]
  split
  · simp
  · cases h : env .navigationDriver <;> simp [h]

/-- Helper: `loadNavigationController` never fails with
`ROBOT_CONFIG_FAIL`. -/
theorem loadNavigationController_no_configFail (env : LoadEnv) (st : RobotRt) :
    Robot.loadNavigationController env st ≠ .error .configFail := by
  rw [Robot.loadNavigationController]
  split
  · simp
  · cases h : env .navigationController <;> simp [h]

/-- Helper: `loadGripperDriver` never fails with `ROBOT_CONFIG_FAIL`. -/
theorem loadGripperDriver_no_configFail (env : LoadEnv) (st : RobotRt) :
    Robot.loadGripperDriver env st ≠ .error .configFail := by
  rw [Robot.loadGripperDriver]
  split
  · simp
  · cases h : env .gripperDriver <;> simp [h]

/-- Helper: `loadGripperController` never fails with `ROBOT_CONFIG_FAIL`. -/
theorem loadGripperController_no_configFail (env : LoadEnv) (st : RobotRt) :
    Robot.loadGripperController env st ≠ .error .configFail := by
  rw [Robot.loadGripperController]
  split
  · simp
  · cases h : env .gripperController <;> simp [h]

/-- Helper: a driver-then-controller pair never fails with
`ROBOT_CONFIG_FAIL`. -/
theorem loadManipulationPair_no_configFail (env : LoadEnv) (st : RobotRt) :
    Robot.loadManipulationPair env st ≠ .error .configFail := by
  rw [Robot.loadManipulationPair]
  split
  · rename_i e heq
    intro hc
    rw [Except.error.injEq] at hc
    exact loadManipulationDriver_no_configFail env st (by rw [heq, hc])
  · rename_i st1 t1 heq
    split
    · rename_i e heq2
      intro hc
      rw [Except.error.injEq] at hc
      exact loadManipulationController_no_configFail env st1 (by rw [heq2, hc])
    · simp

/-- Helper: the navigation pair never fails with `ROBOT_CONFIG_FAIL`. -/
theorem loadNavigationPair_no_configFail (env : LoadEnv) (st : RobotRt) :
    Robot.loadNavigationPair env st ≠ .error .configFail := by
  rw [Robot.loadNavigationPair]
  split
  · rename_i e heq
    intro hc
    rw [Except.error.injEq] at hc
    exact loadNavigationDriver_no_configFail env st (by rw [heq, hc])
  · rename_i st1 t1 heq
    split
    · rename_i e heq2
      intro hc
      rw [Except.error.injEq] at hc
      exact loadNavigationController_no_configFail env st1 (by rw [heq2, hc])
    · simp

/-- Helper: the gripper pair never fails with `ROBOT_CONFIG_FAIL`. -/
theorem loadGripperPair_no_configFail (env : LoadEnv) (st : RobotRt) :
    Robot.loadGripperPair env st ≠ .error .configFail := by
  rw [Robot.loadGripperPair]
  split
  · rename_i e heq
    intro hc
    rw [Except.error.injEq] at hc
    exact loadGripperDriver_no_configFail env st (by rw [heq, hc])
  · rename_i st1 t1 heq
    split
    · rename_i e heq2
      intro hc
      rw [Except.error.injEq] at hc
      exact loadGripperController_no_configFail env st1 (by rw [heq2, hc])
    · simp

/-- Helper: an if-guarded load step whose else branch succeeds immediately
never fails with `ROBOT_CONFIG_FAIL` when the guarded step cannot. -/
theorem ite_step_no_configFail {b : Bool} {x : Except LoadError (RobotRt × List LoadStep)}
    {y : RobotRt × List LoadStep} (hx : x ≠ .error .configFail) :
    (if b then x else Except.ok y) ≠ .error .configFail := by
  cases b
  · simp
  · simpa using hx

/-- C8: `Robot::load` is rejected with the configuration error
(`ROBOT_CONFIG_FAIL`, "Robot is missing features") if and only if all
four features — urdf, manipulation, navigation, gripper — are disabled;
and the check is a load-time check only: a config whose features are all
disabled still passes parsing (it is stored by `parseRobotConfigs`,
whose duplicate check never inspects feature enablement), so such a
config is storable but unloadable. -/
theorem load_configFail_iff_all_features_disabled :
    (∀ (env : LoadEnv) (st : RobotRt),
       Robot.load env st = .error .configFail ↔
       (st.config.featureURDF.enabled = false ∧
        st.config.featureManipulation.enabled = false ∧
        st.config.featureNavigation.enabled = false ∧
        st.config.featureGripper.enabled = false)) ∧
    (∀ c : RobotConfig, RobotManager.parseRobotConfigs1 [c] = [c]) := by
  constructor
  · intro env st
    have hiff : (!st.config.featureURDF.enabled && !st.config.featureManipulation.enabled &&
        !st.config.featureNavigation.enabled && !st.config.featureGripper.enabled) = true ↔
        (st.config.featureURDF.enabled = false ∧
         st.config.featureManipulation.enabled = false ∧
         st.config.featureNavigation.enabled = false ∧
         st.config.featureGripper.enabled = false) := by
      simp [Bool.and_eq_true, Bool.not_eq_true', and_assoc]
    constructor
    · intro h
      rw [Robot.load] at h
      split at h
      · rename_i hcond
        exact hiff.mp hcond
      · split at h
        · rename_i e heq
          rw [Except.error.injEq] at h
          rw [h] at heq
          exact absurd heq (ite_step_no_configFail (loadUrdf_no_configFail env st))
        · split at h
          · rename_i e heq
            rw [Except.error.injEq] at h
            rw [h] at heq
            exact absurd heq (ite_step_no_configFail
              (loadManipulationPair_no_configFail env _))
          · split at h
            · rename_i e heq
              rw [Except.error.injEq] at h
              rw [h] at heq
              exact absurd heq (ite_step_no_configFail
                (loadNavigationPair_no_configFail env _))
            · split at h
              · rename_i e heq
                rw [Except.error.injEq] at h
                rw [h] at heq
                exact absurd heq (ite_step_no_configFail
                  (loadGripperPair_no_configFail env _))
              · exact absurd h (by simp)
    · intro h
      rw [Robot.load, if_pos (hiff.mpr h)]
  · intro c
    rfl

/-- C3 counterexample: for the spec scenario config (manipulation enabled,
one planning group "main", no driver configured), `Robot::load` does NOT
launch the manipulation controller and opens NO planning session: the
source guards the whole manipulation branch with
`isEnabled() and isDriverEnabled()`, so with the driver not configured
both the driver step and the controller step are skipped and the load
returns having performed no action at all — contradicting the claim that
the controller is still launched and one session per group is opened. -/
theorem load_manip_without_driver_launches_nothing :
    Robot.load (fun _ => some 1) (Robot.init manipOnlyNoDriverCfg) =
      .ok (Robot.init manipOnlyNoDriverCfg, []) ∧
    ¬ ∃ (st : RobotRt) (tr : List LoadStep),
        Robot.load (fun _ => some 1) (Robot.init manipOnlyNoDriverCfg) = .ok (st, tr) ∧
        (LoadStep.manipulationController ∈ tr ∨ st.planningGroups ≠ []) := by
  have h : Robot.load (fun _ => some 1) (Robot.init manipOnlyNoDriverCfg) =
      .ok (Robot.init manipOnlyNoDriverCfg, []) := by rfl
  refine ⟨h, ?_⟩
  rintro ⟨st, tr, heq, hbad⟩
  rw [h, Except.ok.injEq, Prod.mk.injEq] at heq
  obtain ⟨hst, htr⟩ := heq
  rcases hbad with hmem | hpg
  · rw [← htr] at hmem
    cases hmem
  · rw [← hst] at hpg
    exact hpg rfl

/-- C3 amended: for a local config with manipulation enabled but no
driver configured (`driver_enabled = false`), `Robot::load` skips the
whole manipulation branch — neither the driver nor the controller is
launched and no planning session is opened; with the three other features
disabled the load succeeds having done nothing.  (Driver and controller
are only launched, with one session per configured group, when both
`enabled` and `driver_enabled` hold.) -/
theorem load_manip_without_driver_noop :
    ∀ (env : LoadEnv) (c : RobotConfig) (pg : List String) (v : Bool),
      c.featureURDF.enabled = false →
      c.featureManipulation.enabled = true →
      c.featureManipulation.driverEnabled = false →
      c.featureNavigation.enabled = false →
      c.featureGripper.enabled = false →
      Robot.load env { config := c, planningGroups := pg, isPlanValid := v } =
        .ok ({ config := c, planningGroups := pg, isPlanValid := v }, []) := by
  intro env c pg v hu hm hmd hn hg
  rw [Robot.load]
  rw [if_neg (by simp [hm])]
  simp [hu, hm, hmd, hn, hg]

/-- Witness for C3's amended theorem: the scenario config evaluated with
an always-succeeding launcher. -/
theorem load_manip_without_driver_noop_witness :
    Robot.load (fun _ => some 7)
        { config := manipOnlyNoDriverCfg, planningGroups := [], isPlanValid := false } =
      .ok ({ config := manipOnlyNoDriverCfg, planningGroups := [], isPlanValid := false },
        []) :=
  load_manip_without_driver_noop (fun _ => some 7) manipOnlyNoDriverCfg [] false
    (by decide) (by decide) (by decide) (by decide) (by decide)

/-- C1 counterexample: tie-breaking by discovery order is NOT guaranteed.
`findRobot` sorts the candidates with `std::sort`, which is not a stable
sort: any permutation in non-increasing reliability order is a legal
outcome.  For the two distinct configs `cfgTieA` and `cfgTieB` (same name
"arm1", same reliability), the output `[cfgTieB, cfgTieA]` satisfies the
sort's postcondition (`IsSortOutput`), and under it `findRobot` returns
`cfgTieB` — not `cfgTieA`, the candidate earliest in the original
(discovery) order. -/
theorem findRobot_tie_not_stable :
    IsSortOutput (RobotManager.findRobotCandidates "" [cfgTieA, cfgTieB])
      [cfgTieB, cfgTieA] ∧
    RobotManager.findRobot (fun _ => [cfgTieB, cfgTieA]) "" [cfgTieA, cfgTieB] =
      some cfgTieB ∧
    cfgTieB ≠ cfgTieA ∧
    cfgTieA.reliability = cfgTieB.reliability := by
  refine ⟨⟨?_, ?_⟩, rfl, by decide, by decide⟩
  · decide
  · decide

/-- C1 amended: `findRobot` selects candidates (all configs when the name
is empty, otherwise exactly the configs with that name), returns null
exactly when the candidate set is empty, and otherwise returns a
candidate of maximal reliability — for every outcome the `std::sort`
contract allows.  Which of several reliability-tied candidates is
returned is unspecified (`std::sort` is not stable). -/
theorem findRobot_returns_max_reliability :
    ∀ (sortFn : List RobotConfig → List RobotConfig) (robotName : String)
      (configs : List RobotConfig),
      IsSortOutput (RobotManager.findRobotCandidates robotName configs)
        (sortFn (RobotManager.findRobotCandidates robotName configs)) →
      (robotName = "" → RobotManager.findRobotCandidates robotName configs = configs) ∧
      (robotName ≠ "" → RobotManager.findRobotCandidates robotName configs =
        configs.filter (fun s => s.name == robotName)) ∧
      (RobotManager.findRobot sortFn robotName configs = none ↔
        RobotManager.findRobotCandidates robotName configs = []) ∧
      (∀ c, RobotManager.findRobot sortFn robotName configs = some c →
        c ∈ RobotManager.findRobotCandidates robotName configs ∧
        ∀ d ∈ RobotManager.findRobotCandidates robotName configs,
          d.reliability ≤ c.reliability) := by
  intro sortFn robotName configs hsort
  obtain ⟨hperm, hpair⟩ := hsort
  refine ⟨?_, ?_, ?_, ?_⟩
  · intro h; simp [RobotManager.findRobotCandidates, h]
  · intro h; simp [RobotManager.findRobotCandidates, h]
  · rw [RobotManager.findRobot]
    by_cases hemp : (RobotManager.findRobotCandidates robotName configs).isEmpty
    · simp only [hemp, if_true]
      simp only [List.isEmpty_iff] at hemp
      simp [hemp]
    · simp only [hemp, Bool.false_eq_true, if_false]
      simp only [Bool.not_eq_true, List.isEmpty_eq_false_iff_exists_mem] at hemp
      constructor
      · intro hnone
        cases hout : sortFn (RobotManager.findRobotCandidates robotName configs) with
        | nil =>
            obtain ⟨x, hx⟩ := hemp
            have : x ∈ sortFn (RobotManager.findRobotCandidates robotName configs) :=
              hperm.mem_iff.mp hx
            rw [hout] at this
            cases this
        | cons a t =>
            rw [hout] at hnone
            cases hnone
      · intro habs
        obtain ⟨x, hx⟩ := hemp
        rw [habs] at hx
        cases hx
  · intro c hc
    rw [RobotManager.findRobot] at hc
    by_cases hemp : (RobotManager.findRobotCandidates robotName configs).isEmpty
    · rw [if_pos hemp] at hc
      cases hc
    · rw [if_neg hemp] at hc
      cases hout : sortFn (RobotManager.findRobotCandidates robotName configs) with
      | nil => rw [hout] at hc; cases hc
      | cons a t =>
          rw [hout] at hc
          have hca : c = a := by
            have := hc
            simp [List.head?] at this
            exact this.symm
          subst hca
          rw [hout] at hperm hpair
          rw [List.pairwise_cons] at hpair
          constructor
          · exact hperm.symm.mem_iff.mp (List.mem_cons_self c t)
          · intro d hd
            have hd2 : d ∈ c :: t := hperm.mem_iff.mp hd
            rcases List.mem_cons.mp hd2 with hdc | hdt
            · rw [hdc]
            · exact hpair.1 d hdt

/-- Witness for C1's amended theorem: the identity function is a valid
sort output on the singleton candidate list of `cfgTieA`, and the theorem
instantiated there yields the none-iff-empty and max-reliability facts. -/
theorem findRobot_returns_max_reliability_witness :
    (RobotManager.findRobot (fun l => l) "" [cfgTieA] = none ↔
      RobotManager.findRobotCandidates "" [cfgTieA] = []) ∧
    (∀ c, RobotManager.findRobot (fun l => l) "" [cfgTieA] = some c →
      c ∈ RobotManager.findRobotCandidates "" [cfgTieA] ∧
      ∀ d ∈ RobotManager.findRobotCandidates "" [cfgTieA],
        d.reliability ≤ c.reliability) :=
  ⟨(findRobot_returns_max_reliability (fun l => l) "" [cfgTieA] (by decide)).2.2.1,
   (findRobot_returns_max_reliability (fun l => l) "" [cfgTieA] (by decide)).2.2.2⟩

/-- C2 counterexample: the self-healing reload IS a whole-robot reload,
and the manager-side handler does nothing.  With one allocated robot
"arm1" tracked under resource id 7, a FAILED notification for id 7 makes
`RobotManagerInterface::statusInfoCb` unload resource 7 and then re-issue
the `RobotLoad` request for robot "arm1" — i.e. it unloads and reloads
the whole robot, contradicting the claim's "does not unload or reload the
whole Robot".  Meanwhile `RobotManager::statusInfoCb` (whose body is
entirely commented out and which is never registered) performs no
unload-then-reload at all, contradicting "triggers exactly one automatic
unload-then-reload". -/
theorem statusInfoCb_failed_reloads_whole_robot :
    RobotManagerInterface.statusInfoCb
        [{ requestRobotName := "arm1", responseResourceId := 7 }] 7 .FAILED 8 =
      ([{ requestRobotName := "arm1", responseResourceId := 8 }],
       [.unloadClientResource 7, .callRobotLoad "arm1"]) ∧
    IfaceAction.callRobotLoad "arm1" ∈
      (RobotManagerInterface.statusInfoCb
        [{ requestRobotName := "arm1", responseResourceId := 7 }] 7 .FAILED 8).2 ∧
    RobotManager.statusInfoCb [{ name := "arm1", temotoNamespace := "ns_a" }] .FAILED =
      ([{ name := "arm1", temotoNamespace := "ns_a" }], []) := by
  refine ⟨by decide, by decide, rfl⟩

/-- C2 amended: a FAILED status for a resource that matches an allocated
robot load in `RobotManagerInterface` triggers exactly one unload of that
client resource followed by exactly one re-issue of the same `RobotLoad`
request — i.e. the whole robot is unloaded and reloaded, and the matched
entry's response is updated in place — while every other allocated entry
is left unchanged; any non-FAILED notification, or a FAILED notification
matching no allocated entry, performs no action; and the manager-side
`RobotManager::statusInfoCb` performs no action whatsoever (its body is
commented out in the source). -/
theorem statusInfoCb_failed_reload_behaviour :
    (∀ (pre post : List RobotLoadQuery) (r : RobotLoadQuery) (rid newRid : Nat),
       (∀ q ∈ pre, q.responseResourceId ≠ rid) →
       r.responseResourceId = rid →
       RobotManagerInterface.statusInfoCb (pre ++ r :: post) rid .FAILED newRid =
         (pre ++ { requestRobotName := r.requestRobotName,
                   responseResourceId := newRid } :: post,
          [.unloadClientResource rid, .callRobotLoad r.requestRobotName])) ∧
    (∀ (robots : List RobotLoadQuery) (rid newRid : Nat) (status : StatusCode),
       status ≠ .FAILED →
       RobotManagerInterface.statusInfoCb robots rid status newRid = (robots, [])) ∧
    (∀ (robots : List RobotLoadQuery) (rid newRid : Nat),
       (∀ q ∈ robots, q.responseResourceId ≠ rid) →
       RobotManagerInterface.statusInfoCb robots rid .FAILED newRid = (robots, [])) ∧
    (∀ (l : List LoadedRobotEntry) (s : StatusCode),
       RobotManager.statusInfoCb l s = (l, [])) := by
  refine ⟨?_, ?_, ?_, fun l s => rfl⟩
  · intro pre post r rid newRid hpre hr
    induction pre with
    | nil =>
        simp [RobotManagerInterface.statusInfoCb, hr]
    | cons q rest ih =>
        have hq : q.responseResourceId ≠ rid := hpre q (List.mem_cons_self q rest)
        have ih2 := ih (fun p hp => hpre p (List.mem_cons_of_mem q hp))
        simp only [List.cons_append, RobotManagerInterface.statusInfoCb, hq, if_false,
          List.append_eq]
        rw [ih2]
  · intro robots rid newRid status hstatus
    induction robots with
    | nil => rfl
    | cons q rest ih =>
        by_cases hq : q.responseResourceId = rid
        · simp [RobotManagerInterface.statusInfoCb, hq, hstatus]
        · simp [RobotManagerInterface.statusInfoCb, hq, ih]
  · intro robots rid newRid h
    induction robots with
    | nil => rfl
    | cons q rest ih =>
        have hq : q.responseResourceId ≠ rid := h q (List.mem_cons_self q rest)
        have ih2 := ih (fun p hp => h p (List.mem_cons_of_mem q hp))
        simp [RobotManagerInterface.statusInfoCb, hq, ih2]

/-- Witness for C2's amended theorem: each part evaluated at concrete
inputs — a two-entry allocated list whose second entry matches, a
non-FAILED notification, an unmatched FAILED notification, and the
manager handler. -/
theorem statusInfoCb_failed_reload_behaviour_witness :
    RobotManagerInterface.statusInfoCb
        [{ requestRobotName := "arm0", responseResourceId := 3 },
         { requestRobotName := "arm9", responseResourceId := 4 }] 4 .FAILED 9 =
      ([{ requestRobotName := "arm0", responseResourceId := 3 },
        { requestRobotName := "arm9", responseResourceId := 9 }],
       [.unloadClientResource 4, .callRobotLoad "arm9"]) ∧
    RobotManagerInterface.statusInfoCb
        [{ requestRobotName := "arm0", responseResourceId := 3 }] 3 .OK 9 =
      ([{ requestRobotName := "arm0", responseResourceId := 3 }], []) ∧
    RobotManagerInterface.statusInfoCb
        [{ requestRobotName := "arm0", responseResourceId := 3 }] 5 .FAILED 9 =
      ([{ requestRobotName := "arm0", responseResourceId := 3 }], []) ∧
    RobotManager.statusInfoCb ([] : List LoadedRobotEntry) .OK = ([], []) := by
  refine ⟨?_, ?_, ?_, ?_⟩
  · have := statusInfoCb_failed_reload_behaviour.1
      [{ requestRobotName := "arm0", responseResourceId := 3 }] []
      { requestRobotName := "arm9", responseResourceId := 4 } 4 9
      (by decide) (by decide)
    simpa using this
  · exact statusInfoCb_failed_reload_behaviour.2.1
      [{ requestRobotName := "arm0", responseResourceId := 3 }] 3 9 .OK (by decide)
  · exact statusInfoCb_failed_reload_behaviour.2.2.1
      [{ requestRobotName := "arm0", responseResourceId := 3 }] 5 9 (by decide)
  · exact statusInfoCb_failed_reload_behaviour.2.2.2 [] .OK

/-- C4 counterexample: `getVizInfoCb` never forwards.  With a single
loaded robot "arm1" owned by the remote namespace "ns_b" (distinct from a
local coordinator namespace "ns_a"), the get-viz-info endpoint still
executes locally and issues no remote call — its result carries no
forwarded request, has run the local computation, and is independent of
the coordinator's namespace (the source callback has no local/remote
branch at all) — contradicting the claim that every one of the six
operation endpoints forwards to the owning coordinator when the robot is
remote. -/
theorem getVizInfoCb_executes_locally_for_remote_robot :
    ("ns_b" : String) ≠ "ns_a" ∧
    RobotManager.getVizInfoCb [{ name := "arm1", temotoNamespace := "ns_b" }]
        { robotName := "arm1" } (fun _ => "info") =
      ⟨.ok "info", none, true⟩ := by
  exact ⟨by decide, rfl⟩

/-- C4 amended: the five operation endpoints plan, execute,
get-manipulation-target, navigation-goal and gripper-control all resolve
the loaded robot by name, failing with the not-loaded error (`NULL_PTR`,
"Robot is not loaded") exactly when no loaded robot has that name;
when the robot's namespace equals the coordinator's own they execute
locally; otherwise they forward the unmodified request once to
`"/" + namespace + "/" + server` and relay the remote response verbatim,
with a failed remote call surfacing as `SERVICE_REQ_FAIL` and no retry.
`getVizInfoCb`, by contrast, resolves the robot and then always answers
locally.  -/
theorem operation_endpoints_route_by_locality :
    (∀ (robots : List LoadedRobotEntry) (n : String),
       RobotManager.findLoadedRobot robots n = .error .NULL_PTR ↔
       ∀ r ∈ robots, r.name ≠ n) ∧
    (∀ (Resp : Type) (ownNs : String) (robots : List LoadedRobotEntry) (req : PlanReq)
       (localOp : LoadedRobotEntry → PlanReq → Except RmError Resp)
       (remoteCall : String → PlanReq → Option Resp) (e : RmError) (lr : LoadedRobotEntry),
       (RobotManager.findLoadedRobot robots req.robotName = .error e →
          RobotManager.planManipulationPathCb ownNs robots req localOp remoteCall =
            ⟨.error e, none, false⟩) ∧
       (RobotManager.findLoadedRobot robots req.robotName = .ok lr →
          lr.temotoNamespace = ownNs →
          RobotManager.planManipulationPathCb ownNs robots req localOp remoteCall =
            ⟨localOp lr req, none, true⟩) ∧
       (RobotManager.findLoadedRobot robots req.robotName = .ok lr →
          lr.temotoNamespace ≠ ownNs →
          RobotManager.planManipulationPathCb ownNs robots req localOp remoteCall =
            ⟨match remoteCall ("/" ++ lr.temotoNamespace ++ "/" ++ srvName.SERVER_PLAN) req
                with
              | some resp => .ok resp
              | none => .error .SERVICE_REQ_FAIL,
             some ("/" ++ lr.temotoNamespace ++ "/" ++ srvName.SERVER_PLAN, req), false⟩)) ∧
    (∀ (Resp : Type) (ownNs : String) (robots : List LoadedRobotEntry) (req : ExecReq)
       (localOp : LoadedRobotEntry → ExecReq → Except RmError Resp)
       (remoteCall : String → ExecReq → Option Resp) (e : RmError) (lr : LoadedRobotEntry),
       (RobotManager.findLoadedRobot robots req.robotName = .error e →
          RobotManager.execManipulationPathCb ownNs robots req localOp remoteCall =
            ⟨.error e, none, false⟩) ∧
       (RobotManager.findLoadedRobot robots req.robotName = .ok lr →
          lr.temotoNamespace = ownNs →
          RobotManager.execManipulationPathCb ownNs robots req localOp remoteCall =
            ⟨localOp lr req, none, true⟩) ∧
       (RobotManager.findLoadedRobot robots req.robotName = .ok lr →
          lr.temotoNamespace ≠ ownNs →
          RobotManager.execManipulationPathCb ownNs robots req localOp remoteCall =
            ⟨match remoteCall ("/" ++ lr.temotoNamespace ++ "/" ++ srvName.SERVER_EXECUTE)
                req with
              | some resp => .ok resp
              | none => .error .SERVICE_REQ_FAIL,
             some ("/" ++ lr.temotoNamespace ++ "/" ++ srvName.SERVER_EXECUTE, req),
             false⟩)) ∧
    (∀ (Resp : Type) (ownNs : String) (robots : List LoadedRobotEntry) (req : GetTargetReq)
       (localOp : LoadedRobotEntry → GetTargetReq → Except RmError Resp)
       (remoteCall : String → GetTargetReq → Option Resp) (e : RmError)
       (lr : LoadedRobotEntry),
       (RobotManager.findLoadedRobot robots req.robotName = .error e →
          RobotManager.getManipulationTargetCb ownNs robots req localOp remoteCall =
            ⟨.error e, none, false⟩) ∧
       (RobotManager.findLoadedRobot robots req.robotName = .ok lr →
          lr.temotoNamespace = ownNs →
          RobotManager.getManipulationTargetCb ownNs robots req localOp remoteCall =
            ⟨localOp lr req, none, true⟩) ∧
       (RobotManager.findLoadedRobot robots req.robotName = .ok lr →
          lr.temotoNamespace ≠ ownNs →
          RobotManager.getManipulationTargetCb ownNs robots req localOp remoteCall =
            ⟨match remoteCall
                ("/" ++ lr.temotoNamespace ++ "/" ++ srvName.SERVER_GET_MANIPULATION_TARGET)
                req with
              | some resp => .ok resp
              | none => .error .SERVICE_REQ_FAIL,
             some ("/" ++ lr.temotoNamespace ++ "/" ++
               srvName.SERVER_GET_MANIPULATION_TARGET, req), false⟩)) ∧
    (∀ (Resp : Type) (ownNs : String) (robots : List LoadedRobotEntry) (req : NavReq)
       (localOp : LoadedRobotEntry → NavReq → Except RmError Resp)
       (remoteCall : String → NavReq → Option Resp) (e : RmError) (lr : LoadedRobotEntry),
       (RobotManager.findLoadedRobot robots req.robotName = .error e →
          RobotManager.goalNavigationCb ownNs robots req localOp remoteCall =
            ⟨.error e, none, false⟩) ∧
       (RobotManager.findLoadedRobot robots req.robotName = .ok lr →
          lr.temotoNamespace = ownNs →
          RobotManager.goalNavigationCb ownNs robots req localOp remoteCall =
            ⟨localOp lr req, none, true⟩) ∧
       (RobotManager.findLoadedRobot robots req.robotName = .ok lr →
          lr.temotoNamespace ≠ ownNs →
          RobotManager.goalNavigationCb ownNs robots req localOp remoteCall =
            ⟨match remoteCall
                ("/" ++ lr.temotoNamespace ++ "/" ++ srvName.SERVER_NAVIGATION_GOAL) req with
              | some resp => .ok resp
              | none => .error .SERVICE_REQ_FAIL,
             some ("/" ++ lr.temotoNamespace ++ "/" ++ srvName.SERVER_NAVIGATION_GOAL, req),
             false⟩)) ∧
    (∀ (Resp : Type) (ownNs : String) (robots : List LoadedRobotEntry) (req : GripperReq)
       (localOp : LoadedRobotEntry → GripperReq → Except RmError Resp)
       (remoteCall : String → GripperReq → Option Resp) (e : RmError)
       (lr : LoadedRobotEntry),
       (RobotManager.findLoadedRobot robots req.robotName = .error e →
          RobotManager.gripperControlPositionCb ownNs robots req localOp remoteCall =
            ⟨.error e, none, false⟩) ∧
       (RobotManager.findLoadedRobot robots req.robotName = .ok lr →
          lr.temotoNamespace = ownNs →
          RobotManager.gripperControlPositionCb ownNs robots req localOp remoteCall =
            ⟨localOp lr req, none, true⟩) ∧
       (RobotManager.findLoadedRobot robots req.robotName = .ok lr →
          lr.temotoNamespace ≠ ownNs →
          RobotManager.gripperControlPositionCb ownNs robots req localOp remoteCall =
            ⟨match remoteCall
                ("/" ++ lr.temotoNamespace ++ "/" ++ srvName.SERVER_GRIPPER_CONTROL_POSITION)
                req with
              | some resp => .ok resp
              | none => .error .SERVICE_REQ_FAIL,
             some ("/" ++ lr.temotoNamespace ++ "/" ++
               srvName.SERVER_GRIPPER_CONTROL_POSITION, req), false⟩)) ∧
    (∀ (robots : List LoadedRobotEntry) (req : VizReq)
       (vizInfo : LoadedRobotEntry → String) (e : RmError) (lr : LoadedRobotEntry),
       (RobotManager.findLoadedRobot robots req.robotName = .error e →
          RobotManager.getVizInfoCb robots req vizInfo = ⟨.error e, none, false⟩) ∧
       (RobotManager.findLoadedRobot robots req.robotName = .ok lr →
          RobotManager.getVizInfoCb robots req vizInfo = ⟨.ok (vizInfo lr), none, true⟩)) := by
  refine ⟨?_, ?_, ?_, ?_, ?_, ?_, ?_⟩
  · intro robots n
    rw [RobotManager.findLoadedRobot]
    cases hf : robots.find? (fun p => p.name == n) with
    | none =>
        simp only [List.find?_eq_none, beq_iff_eq] at hf
        simpa using hf
    | some r =>
        have hmem := List.mem_of_find?_eq_some hf
        have hpr := List.find?_some hf
        rw [beq_iff_eq] at hpr
        simp only [reduceCtorEq, false_iff, not_forall]
        exact ⟨r, hmem, fun hne => hne hpr⟩
  · intro Resp ownNs robots req localOp remoteCall e lr
    refine ⟨?_, ?_, ?_⟩
    · intro hf; simp [RobotManager.planManipulationPathCb, hf]
    · intro hf hloc; simp [RobotManager.planManipulationPathCb, hf, hloc]
    · intro hf hrem
      simp [RobotManager.planManipulationPathCb, hf, hrem]
      cases remoteCall ("/" ++ lr.temotoNamespace ++ "/" ++ srvName.SERVER_PLAN) req <;> rfl
  · intro Resp ownNs robots req localOp remoteCall e lr
    refine ⟨?_, ?_, ?_⟩
    · intro hf; simp [RobotManager.execManipulationPathCb, hf]
    · intro hf hloc; simp [RobotManager.execManipulationPathCb, hf, hloc]
    · intro hf hrem
      simp [RobotManager.execManipulationPathCb, hf, hrem]
      cases remoteCall ("/" ++ lr.temotoNamespace ++ "/" ++ srvName.SERVER_EXECUTE) req <;> rfl
  · intro Resp ownNs robots req localOp remoteCall e lr
    refine ⟨?_, ?_, ?_⟩
    · intro hf; simp [RobotManager.getManipulationTargetCb, hf]
    · intro hf hloc; simp [RobotManager.getManipulationTargetCb, hf, hloc]
    · intro hf hrem
      simp [RobotManager.getManipulationTargetCb, hf, hrem]
      cases remoteCall ("/" ++ lr.temotoNamespace ++ "/" ++ srvName.SERVER_GET_MANIPULATION_TARGET) req <;> rfl
  · intro Resp ownNs robots req localOp remoteCall e lr
    refine ⟨?_, ?_, ?_⟩
    · intro hf; simp [RobotManager.goalNavigationCb, hf]
    · intro hf hloc; simp [RobotManager.goalNavigationCb, hf, hloc]
    · intro hf hrem
      simp [RobotManager.goalNavigationCb, hf, hrem]
      cases remoteCall ("/" ++ lr.temotoNamespace ++ "/" ++ srvName.SERVER_NAVIGATION_GOAL) req <;> rfl
  · intro Resp ownNs robots req localOp remoteCall e lr
    refine ⟨?_, ?_, ?_⟩
    · intro hf; simp [RobotManager.gripperControlPositionCb, hf]
    · intro hf hloc; simp [RobotManager.gripperControlPositionCb, hf, hloc]
    · intro hf hrem
      simp [RobotManager.gripperControlPositionCb, hf, hrem]
      cases remoteCall ("/" ++ lr.temotoNamespace ++ "/" ++ srvName.SERVER_GRIPPER_CONTROL_POSITION) req <;> rfl
  · intro robots req vizInfo e lr
    refine ⟨?_, ?_⟩
    · intro hf; simp [RobotManager.getVizInfoCb, hf]
    · intro hf; simp [RobotManager.getVizInfoCb, hf]

/-- Witness for C4's amended theorem: the routing theorem applied at
concrete inputs — a local robot served locally by the plan endpoint, a
remote robot whose transport call fails surfacing `SERVICE_REQ_FAIL`
on the execute endpoint, and an unknown robot rejected with the
not-loaded error by the viz endpoint. -/
theorem operation_endpoints_route_by_locality_witness :
    RobotManager.planManipulationPathCb "ns_a"
        [{ name := "arm1", temotoNamespace := "ns_a" }]
        { robotName := "arm1", planningGroup := "main", useNamedTarget := false,
          namedTarget := "", targetPose := 0 }
        (fun _ _ => (.ok 5 : Except RmError Nat)) (fun _ _ => none) =
      ⟨.ok 5, none, true⟩ ∧
    RobotManager.execManipulationPathCb "ns_a"
        [{ name := "arm1", temotoNamespace := "ns_b" }] { robotName := "arm1" }
        (fun _ _ => (.ok 5 : Except RmError Nat)) (fun _ _ => none) =
      ⟨.error .SERVICE_REQ_FAIL,
       some ("/" ++ "ns_b" ++ "/" ++ srvName.SERVER_EXECUTE, { robotName := "arm1" }),
       false⟩ ∧
    RobotManager.getVizInfoCb [] { robotName := "armX" } (fun _ => "i") =
      ⟨.error .NULL_PTR, none, false⟩ := by
  refine ⟨?_, ?_, ?_⟩
  · exact (operation_endpoints_route_by_locality.2.1 Nat "ns_a"
      [{ name := "arm1", temotoNamespace := "ns_a" }]
      { robotName := "arm1", planningGroup := "main", useNamedTarget := false,
        namedTarget := "", targetPose := 0 }
      (fun _ _ => (.ok 5 : Except RmError Nat)) (fun _ _ => none) .NULL_PTR
      { name := "arm1", temotoNamespace := "ns_a" }).2.1 rfl rfl
  · exact (operation_endpoints_route_by_locality.2.2.1 Nat "ns_a"
      [{ name := "arm1", temotoNamespace := "ns_b" }] { robotName := "arm1" }
      (fun _ _ => (.ok 5 : Except RmError Nat)) (fun _ _ => none) .NULL_PTR
      { name := "arm1", temotoNamespace := "ns_b" }).2.2 rfl (by decide)
  · exact (operation_endpoints_route_by_locality.2.2.2.2.2.2 []
      { robotName := "armX" } (fun _ => "i") .NULL_PTR
      { name := "armX", temotoNamespace := "x" }).1 rfl
